import Mathlib

/-!
Shallow embedding of the Overscan Blender add-on (repository `Overscan`).

Source files:
* `src/__init__.py` — the current packaged revision (operators
  `ApplyOverscan.execute`, `RevertOverscan.execute`), which also computes
  safe-area margins;
* `src/BlenderBob_overscan.py` — the legacy standalone revision (namespace
  `Legacy` below).

Modelling choices:
* Python floats are modelled as exact rationals `ℚ`; Python ints as `ℤ`.
* Python's `/` raises `ZeroDivisionError` on a zero denominator, so every
  division whose denominator is not a nonzero literal is modelled by the
  fallible `pydiv : ℚ → ℚ → Except Unit ℚ` and the operator bodies live in
  `Except Unit`.
* Python's `round` is round-half-to-even (`pyRound`).
* Python strings are sequences of code points, modelled as `List Char`;
  `str.endswith` is `pyEndsWith` and the slice `name[:-2]` is
  `List.take (length - 2)`.
* Blender custom properties (`camera['original_width']` etc.) are
  `Option`-valued fields; `camera.get(key, default)` is `Option.getD`; the
  per-index keys `bg_image_scale_{index}` form the association list
  `bg_image_scale` read through `List.lookup` (assignment conses, lookup
  returns the most recent binding, matching dict overwrite).
-/

/-- The overscan mode enum (`OverscanSettings.mode_items`). -/
inductive Mode where
  | PERCENTAGE
  | PIXELS
  | SPECIFIC_X
deriving DecidableEq, Repr

/-- The camera projection type; the source only distinguishes
`camera.type == 'ORTHO'` from everything else (`PERSP`). -/
inductive CameraType where
  | ORTHO
  | PERSP
deriving DecidableEq, Repr

/-- Operator return value: `{'CANCELLED'}` or `{'FINISHED'}`. -/
inductive OpResult where
  | CANCELLED
  | FINISHED
deriving DecidableEq, Repr

/-- A camera background image; `has_scale` models the
`hasattr(bg_image, 'scale')` test. -/
structure BGImage where
  has_scale : Bool
  scale : ℚ
deriving DecidableEq, Repr

/-- A camera data block (`scene.camera.data`), including its custom
properties (the `Option`-valued fields and the `bg_image_scale` list). -/
structure CameraData where
  type : CameraType
  sensor_width : ℚ
  ortho_scale : ℚ
  background_images : List BGImage
  show_safe_areas : Bool
  original_width : Option ℤ
  original_height : Option ℤ
  original_sensor_width : Option ℚ
  original_ortho_scale : Option ℚ
  bg_image_scale : List (Nat × ℚ)
  overscan_applied : Option Bool
deriving DecidableEq, Repr

/-- The camera object (`scene.camera`): display name plus data block. -/
structure CameraObject where
  name : List Char
  data : CameraData
deriving DecidableEq, Repr

/-- `scene.safe_areas`: action and title margins, each an (x, y) pair. -/
structure SafeAreas where
  action : ℚ × ℚ
  title : ℚ × ℚ
deriving DecidableEq, Repr

/-- The `OverscanSettings` property group (UI-only members omitted). -/
structure OverscanSettings where
  mode : Mode
  percentage : ℚ
  extra_pixels : ℤ
  specific_x_resolution : ℤ
  original_width : ℤ
  original_height : ℤ
  original_sensor_width : ℚ
deriving DecidableEq, Repr

/-- The scene state touched by the operators. -/
structure Scene where
  render_resolution_x : ℤ
  render_resolution_y : ℤ
  camera : CameraObject
  overscan_settings : OverscanSettings
  safe_areas : SafeAreas
deriving DecidableEq, Repr

/-- Python `/`: raises (`Except.error`) on a zero denominator, otherwise
returns the exact quotient. -/
def pydiv (a b : ℚ) : Except Unit ℚ :=
  if b = 0 then Except.error () else Except.ok (a / b)

/-- Python `round`: round half to even. -/
def pyRound (q : ℚ) : ℤ :=
  let f := ⌊q⌋
  if q - f < 1 / 2 then f
  else if 1 / 2 < q - f then f + 1
  else if f % 2 = 0 then f else f + 1

/-- Python `s.endswith(suffix)` on code-point sequences. -/
def pyEndsWith (s suffix : List Char) : Bool :=
  s.drop (s.length - suffix.length) == suffix

/-- The suffix marker appended to the camera name, `"_o"`. -/
def oSuffix : List Char := ['_', 'o']

/-- Lines 163–164 of `src/__init__.py` (and 138–139 of the legacy file):
append `"_o"` to the camera name if not already present. -/
def applyNameStep (name : List Char) : List Char :=
  if pyEndsWith name oSuffix then name else name ++ oSuffix

/-- Lines 198–199 of `src/__init__.py` (and 173–174 of the legacy file):
strip a trailing `"_o"` (`name[:-2]`) if present. -/
def revertNameStep (name : List Char) : List Char :=
  if pyEndsWith name oSuffix then name.take (name.length - 2) else name

/-- The loop at lines 156–158 (legacy 142–144): for each background image
with a `scale` attribute, store `camera["bg_image_scale_{index}"] =
bg_image.scale`.  `i` is the running `enumerate` index. -/
def captureBgScales (props : List (Nat × ℚ)) (i : Nat) :
    List BGImage → List (Nat × ℚ)
  | [] => props
  | bg :: bgs =>
      captureBgScales (if bg.has_scale then (i, bg.scale) :: props else props)
        (i + 1) bgs

/-- The loop at lines 159–161 (legacy 149–151): multiply every background
image's `scale` by the given factor. -/
def scaleBgImages (bgs : List BGImage) (c : ℚ) : List BGImage :=
  bgs.map (fun bg => if bg.has_scale then { bg with scale := bg.scale * c } else bg)

/-- The loop at lines 189–193 of `src/__init__.py` (legacy 177–181):
restore each background image's `scale` from the per-index custom property
when that property exists. -/
def restoreBgImages : List BGImage → Nat → List (Nat × ℚ) → List BGImage
  | [], _, _ => []
  | bg :: bgs, i, props =>
      (if bg.has_scale then
        match props.lookup i with
        | some v => { bg with scale := v }
        | none => bg
      else bg) :: restoreBgImages bgs (i + 1) props

/-- Lines 107–125 of `src/__init__.py`: the safe-area action margin pair,
by mode (the title margin is set to `(1, 1)` separately). -/
def computeSafeAction (overscan : OverscanSettings) (ow oh : ℤ) :
    Except Unit (ℚ × ℚ) :=
  match overscan.mode with
  | Mode.PERCENTAGE =>
      match pydiv 100 (overscan.percentage + 100) with
      | Except.error e => Except.error e
      | Except.ok q =>
          let new_safe_area := (q - 1) * (-1)
          Except.ok (new_safe_area, new_safe_area)
  | Mode.PIXELS =>
      let extra_pixels_x : ℚ := (overscan.extra_pixels : ℚ)
      let extra_pixels_y : ℚ := (overscan.extra_pixels : ℚ)
      match pydiv (extra_pixels_x / 2) (extra_pixels_x + (ow : ℚ)) with
      | Except.error e => Except.error e
      | Except.ok qx =>
          match pydiv (extra_pixels_y / 2) (extra_pixels_y + (oh : ℚ)) with
          | Except.error e => Except.error e
          | Except.ok qy => Except.ok (qx * 2, qy * 2)
  | Mode.SPECIFIC_X =>
      match pydiv ((overscan.specific_x_resolution : ℚ) - (ow : ℚ))
          (overscan.specific_x_resolution : ℚ) with
      | Except.error e => Except.error e
      | Except.ok q => Except.ok (q, q)

/-- Lines 127–138 of `src/__init__.py` (identically lines 116–127 of the
legacy file): the new render resolution, by mode. -/
def computeNewResolution (overscan : OverscanSettings) (ow oh : ℤ) :
    Except Unit (ℤ × ℤ) :=
  match overscan.mode with
  | Mode.PERCENTAGE =>
      let overscan_value : ℚ := overscan.percentage / 100
      Except.ok (pyRound ((ow : ℚ) * (1 + overscan_value)),
        pyRound ((oh : ℚ) * (1 + overscan_value)))
  | Mode.PIXELS =>
      Except.ok (ow + overscan.extra_pixels, oh + overscan.extra_pixels)
  | Mode.SPECIFIC_X =>
      match pydiv ((oh : ℚ)) ((ow : ℚ)) with
      | Except.error e => Except.error e
      | Except.ok aspect =>
          Except.ok (overscan.specific_x_resolution,
            pyRound ((overscan.specific_x_resolution : ℚ) * aspect))

/-- `ApplyOverscan.execute` (lines 87–169 of `src/__init__.py`). -/
def ApplyOverscan_execute (scene : Scene) : Except Unit (OpResult × Scene) :=
  let camera := scene.camera.data
  let overscan := scene.overscan_settings
  if camera.overscan_applied = some true then
    Except.ok (OpResult.CANCELLED, scene)
  else
    let camera := { camera with
      original_width := some scene.render_resolution_x,
      original_height := some scene.render_resolution_y }
    let camera :=
      if camera.type = CameraType.ORTHO then
        { camera with original_ortho_scale := some camera.ortho_scale }
      else
        { camera with original_sensor_width := some camera.sensor_width }
    match computeSafeAction overscan (camera.original_width.getD 0)
        (camera.original_height.getD 0) with
    | Except.error e => Except.error e
    | Except.ok action =>
        match computeNewResolution overscan (camera.original_width.getD 0)
            (camera.original_height.getD 0) with
        | Except.error e => Except.error e
        | Except.ok (new_width, new_height) =>
            match pydiv (new_width : ℚ) ((camera.original_width.getD 0 : ℤ) : ℚ) with
            | Except.error e => Except.error e
            | Except.ok scale_factor =>
                let camera :=
                  if camera.type = CameraType.ORTHO then
                    { camera with
                      ortho_scale := camera.original_ortho_scale.getD 0 * scale_factor }
                  else
                    { camera with
                      sensor_width := camera.original_sensor_width.getD 0 * scale_factor }
                match (if camera.type = CameraType.ORTHO then
                    pydiv (camera.original_ortho_scale.getD 0) camera.ortho_scale
                  else
                    pydiv (camera.original_sensor_width.getD 0) camera.sensor_width) with
                | Except.error e => Except.error e
                | Except.ok scale =>
                    let camera := { camera with
                      bg_image_scale :=
                        captureBgScales camera.bg_image_scale 0 camera.background_images }
                    let camera := { camera with
                      background_images := scaleBgImages camera.background_images scale }
                    Except.ok (OpResult.FINISHED,
                      { scene with
                        render_resolution_x := new_width,
                        render_resolution_y := new_height,
                        safe_areas := { action := action, title := (1, 1) },
                        camera :=
                          { name := applyNameStep scene.camera.name,
                            data := { camera with
                              show_safe_areas := true,
                              overscan_applied := some true } } })

/-- `RevertOverscan.execute` (lines 171–202 of `src/__init__.py`). -/
def RevertOverscan_execute (scene : Scene) : OpResult × Scene :=
  let camera := scene.camera.data
  let rx := camera.original_width.getD scene.overscan_settings.original_width
  let ry := camera.original_height.getD scene.overscan_settings.original_height
  let camera :=
    if camera.type = CameraType.ORTHO then
      { camera with ortho_scale := camera.original_ortho_scale.getD camera.ortho_scale }
    else
      { camera with sensor_width := camera.original_sensor_width.getD camera.sensor_width }
  let camera := { camera with
    background_images :=
      restoreBgImages camera.background_images 0 camera.bg_image_scale }
  let camera := { camera with overscan_applied := some false }
  (OpResult.FINISHED,
    { scene with
      render_resolution_x := rx,
      render_resolution_y := ry,
      safe_areas := { action := (1, 1), title := (1, 1) },
      camera := { name := revertNameStep scene.camera.name, data := camera } })

namespace Legacy

/-- Lines 116–127 of `src/BlenderBob_overscan.py`: the new render
resolution, by mode (textually identical to the current revision's
computation). -/
def computeNewResolution (overscan : OverscanSettings) (ow oh : ℤ) :
    Except Unit (ℤ × ℤ) :=
  match overscan.mode with
  | Mode.PERCENTAGE =>
      let overscan_value : ℚ := overscan.percentage / 100
      Except.ok (pyRound ((ow : ℚ) * (1 + overscan_value)),
        pyRound ((oh : ℚ) * (1 + overscan_value)))
  | Mode.PIXELS =>
      Except.ok (ow + overscan.extra_pixels, oh + overscan.extra_pixels)
  | Mode.SPECIFIC_X =>
      match pydiv ((oh : ℚ)) ((ow : ℚ)) with
      | Except.error e => Except.error e
      | Except.ok aspect =>
          Except.ok (overscan.specific_x_resolution,
            pyRound ((overscan.specific_x_resolution : ℚ) * aspect))

/-- `ApplyOverscan.execute` of the legacy revision (lines 101–156 of
`src/BlenderBob_overscan.py`).  There is no ORTHO branch, no safe-area
computation and no `show_safe_areas` flag; the name step runs before the
background-image handling. -/
def ApplyOverscan_execute (scene : Scene) : Except Unit (OpResult × Scene) :=
  let camera := scene.camera.data
  let overscan := scene.overscan_settings
  if camera.overscan_applied = some true then
    Except.ok (OpResult.CANCELLED, scene)
  else
    let camera := { camera with
      original_width := some scene.render_resolution_x,
      original_height := some scene.render_resolution_y,
      original_sensor_width := some camera.sensor_width }
    match computeNewResolution overscan (camera.original_width.getD 0)
        (camera.original_height.getD 0) with
    | Except.error e => Except.error e
    | Except.ok (new_width, new_height) =>
        match pydiv (new_width : ℚ) ((camera.original_width.getD 0 : ℤ) : ℚ) with
        | Except.error e => Except.error e
        | Except.ok sensor_scale =>
            let camera := { camera with
              sensor_width := camera.original_sensor_width.getD 0 * sensor_scale }
            let newName := applyNameStep scene.camera.name
            let camera := { camera with
              bg_image_scale :=
                captureBgScales camera.bg_image_scale 0 camera.background_images }
            match pydiv (camera.original_sensor_width.getD 0) camera.sensor_width with
            | Except.error e => Except.error e
            | Except.ok scale_factor =>
                let camera := { camera with
                  background_images := scaleBgImages camera.background_images scale_factor }
                Except.ok (OpResult.FINISHED,
                  { scene with
                    render_resolution_x := new_width,
                    render_resolution_y := new_height,
                    camera :=
                      { name := newName,
                        data := { camera with overscan_applied := some true } } })

end Legacy

/-! ## Helper definitions for the correctness development -/

/-- The camera parameter the operators act on: `ortho_scale` for ORTHO
cameras, `sensor_width` otherwise. -/
def camParam (s : Scene) : ℚ :=
  if s.camera.data.type = CameraType.ORTHO then s.camera.data.ortho_scale
  else s.camera.data.sensor_width

/-- The scene produced by a successful run of `ApplyOverscan_execute`,
parameterized by the already-computed safe-area action pair and new
resolution; the scale factor is `new_width / original_width` and the
background-image factor is `camParam / (camParam * scale_factor)`. -/
def applyFinalState (s : Scene) (action : ℚ × ℚ) (nw nh : ℤ) : Scene :=
  let sf : ℚ := (nw : ℚ) / (s.render_resolution_x : ℚ)
  let sc : ℚ := camParam s / (camParam s * sf)
  let cam := s.camera.data
  { s with
    render_resolution_x := nw,
    render_resolution_y := nh,
    safe_areas := { action := action, title := (1, 1) },
    camera :=
      { name := applyNameStep s.camera.name,
        data := { cam with
          original_width := some s.render_resolution_x,
          original_height := some s.render_resolution_y,
          original_sensor_width :=
            if cam.type = CameraType.ORTHO then cam.original_sensor_width
            else some cam.sensor_width,
          original_ortho_scale :=
            if cam.type = CameraType.ORTHO then some cam.ortho_scale
            else cam.original_ortho_scale,
          sensor_width :=
            if cam.type = CameraType.ORTHO then cam.sensor_width
            else cam.sensor_width * sf,
          ortho_scale :=
            if cam.type = CameraType.ORTHO then cam.ortho_scale * sf
            else cam.ortho_scale,
          bg_image_scale := captureBgScales cam.bg_image_scale 0 cam.background_images,
          background_images := scaleBgImages cam.background_images sc,
          show_safe_areas := true,
          overscan_applied := some true } } }

/-- The scene produced by a successful run of the legacy
`ApplyOverscan.execute`, parameterized by the new resolution.  The sensor
scale is `new_width / original_width`; the background-image factor is
`original_sensor_width / new_sensor_width`. -/
def legacyFinalState (s : Scene) (nw nh : ℤ) : Scene :=
  let sensor_scale : ℚ := (nw : ℚ) / (s.render_resolution_x : ℚ)
  let scale_factor : ℚ :=
    s.camera.data.sensor_width / (s.camera.data.sensor_width * sensor_scale)
  let cam := s.camera.data
  { s with
    render_resolution_x := nw,
    render_resolution_y := nh,
    camera :=
      { name := applyNameStep s.camera.name,
        data := { cam with
          original_width := some s.render_resolution_x,
          original_height := some s.render_resolution_y,
          original_sensor_width := some cam.sensor_width,
          sensor_width := cam.sensor_width * sensor_scale,
          bg_image_scale := captureBgScales cam.bg_image_scale 0 cam.background_images,
          background_images := scaleBgImages cam.background_images scale_factor,
          overscan_applied := some true } } }

/-! ## Concrete scenes used as witnesses -/

/-- A perspective scene with the applied flag already set. -/
def sceneApplied : Scene :=
  { render_resolution_x := 1920
    render_resolution_y := 1080
    camera :=
      { name := ['C', 'a', 'm']
        data :=
          { type := CameraType.PERSP
            sensor_width := 36
            ortho_scale := 6
            background_images := []
            show_safe_areas := false
            original_width := none
            original_height := none
            original_sensor_width := none
            original_ortho_scale := none
            bg_image_scale := []
            overscan_applied := some true } }
    overscan_settings :=
      { mode := Mode.PERCENTAGE
        percentage := 10
        extra_pixels := 0
        specific_x_resolution := 1920
        original_width := 0
        original_height := 0
        original_sensor_width := 0 }
    safe_areas := { action := (1, 1), title := (1, 1) } }

/-- A small fresh perspective scene in PIXELS mode with one background image. -/
def scenePix : Scene :=
  { render_resolution_x := 1
    render_resolution_y := 1
    camera :=
      { name := ['C', 'a', 'm']
        data :=
          { type := CameraType.PERSP
            sensor_width := 1
            ortho_scale := 3
            background_images := [{ has_scale := true, scale := 5 }]
            show_safe_areas := false
            original_width := none
            original_height := none
            original_sensor_width := none
            original_ortho_scale := none
            bg_image_scale := []
            overscan_applied := none } }
    overscan_settings :=
      { mode := Mode.PIXELS
        percentage := 0
        extra_pixels := 1
        specific_x_resolution := 1920
        original_width := 0
        original_height := 0
        original_sensor_width := 0 }
    safe_areas := { action := (1, 1), title := (1, 1) } }

/-- 1920 by 1080 in PERCENTAGE mode with percentage 10. -/
def scenePct : Scene :=
  { render_resolution_x := 1920
    render_resolution_y := 1080
    camera :=
      { name := ['C', 'a', 'm']
        data :=
          { type := CameraType.PERSP
            sensor_width := 36
            ortho_scale := 6
            background_images := []
            show_safe_areas := false
            original_width := none
            original_height := none
            original_sensor_width := none
            original_ortho_scale := none
            bg_image_scale := []
            overscan_applied := none } }
    overscan_settings :=
      { mode := Mode.PERCENTAGE
        percentage := 10
        extra_pixels := 0
        specific_x_resolution := 1920
        original_width := 0
        original_height := 0
        original_sensor_width := 0 }
    safe_areas := { action := (1, 1), title := (1, 1) } }

/-- 1920 by 1080 in SPECIFIC_X mode with target width 2560. -/
def sceneSx : Scene :=
  { render_resolution_x := 1920
    render_resolution_y := 1080
    camera :=
      { name := ['C', 'a', 'm']
        data :=
          { type := CameraType.PERSP
            sensor_width := 36
            ortho_scale := 6
            background_images := []
            show_safe_areas := false
            original_width := none
            original_height := none
            original_sensor_width := none
            original_ortho_scale := none
            bg_image_scale := []
            overscan_applied := none } }
    overscan_settings :=
      { mode := Mode.SPECIFIC_X
        percentage := 0
        extra_pixels := 0
        specific_x_resolution := 2560
        original_width := 0
        original_height := 0
        original_sensor_width := 0 }
    safe_areas := { action := (1, 1), title := (1, 1) } }

/-- 1920 by 1080 in PIXELS mode with 100 extra pixels. -/
def scenePix100 : Scene :=
  { render_resolution_x := 1920
    render_resolution_y := 1080
    camera :=
      { name := ['C', 'a', 'm']
        data :=
          { type := CameraType.PERSP
            sensor_width := 36
            ortho_scale := 6
            background_images := []
            show_safe_areas := false
            original_width := none
            original_height := none
            original_sensor_width := none
            original_ortho_scale := none
            bg_image_scale := []
            overscan_applied := none } }
    overscan_settings :=
      { mode := Mode.PIXELS
        percentage := 0
        extra_pixels := 100
        specific_x_resolution := 1920
        original_width := 0
        original_height := 0
        original_sensor_width := 0 }
    safe_areas := { action := (1, 1), title := (1, 1) } }

/-- Like scenePix (no background image) but the camera name already ends in the suffix. -/
def sceneSuf : Scene :=
  { render_resolution_x := 1
    render_resolution_y := 1
    camera :=
      { name := ['C', '_', 'o']
        data :=
          { type := CameraType.PERSP
            sensor_width := 1
            ortho_scale := 3
            background_images := []
            show_safe_areas := false
            original_width := none
            original_height := none
            original_sensor_width := none
            original_ortho_scale := none
            bg_image_scale := []
            overscan_applied := none } }
    overscan_settings :=
      { mode := Mode.PIXELS
        percentage := 0
        extra_pixels := 1
        specific_x_resolution := 1920
        original_width := 0
        original_height := 0
        original_sensor_width := 0 }
    safe_areas := { action := (1, 1), title := (1, 1) } }

/-- A scene whose render width is zero (the latent division fault). -/
def sceneZeroW : Scene :=
  { render_resolution_x := 0
    render_resolution_y := 1
    camera :=
      { name := ['C', 'a', 'm']
        data :=
          { type := CameraType.PERSP
            sensor_width := 1
            ortho_scale := 3
            background_images := []
            show_safe_areas := false
            original_width := none
            original_height := none
            original_sensor_width := none
            original_ortho_scale := none
            bg_image_scale := []
            overscan_applied := none } }
    overscan_settings :=
      { mode := Mode.PIXELS
        percentage := 0
        extra_pixels := 1
        specific_x_resolution := 1920
        original_width := 0
        original_height := 0
        original_sensor_width := 0 }
    safe_areas := { action := (1, 1), title := (1, 1) } }

/-- An orthographic scene, on which the two revisions diverge. -/
def sceneOrtho : Scene :=
  { render_resolution_x := 1
    render_resolution_y := 1
    camera :=
      { name := ['C', 'a', 'm']
        data :=
          { type := CameraType.ORTHO
            sensor_width := 1
            ortho_scale := 3
            background_images := []
            show_safe_areas := false
            original_width := none
            original_height := none
            original_sensor_width := none
            original_ortho_scale := none
            bg_image_scale := []
            overscan_applied := none } }
    overscan_settings :=
      { mode := Mode.PIXELS
        percentage := 0
        extra_pixels := 1
        specific_x_resolution := 1920
        original_width := 0
        original_height := 0
        original_sensor_width := 0 }
    safe_areas := { action := (1, 1), title := (1, 1) } }

/-! ## Basic lemmas -/

theorem pydiv_ok_iff {a b c : ℚ} : pydiv a b = Except.ok c ↔ b ≠ 0 ∧ c = a / b := by
  unfold pydiv
  split
  · simp_all
  · simp_all [eq_comm]

theorem pydiv_error_iff {a b : ℚ} {e : Unit} : pydiv a b = Except.error e ↔ b = 0 := by
  unfold pydiv
  split
  · simp_all
  · simp_all

theorem pydiv_ok {a b : ℚ} (h : b ≠ 0) : pydiv a b = Except.ok (a / b) := by
  simp [pydiv, h]

theorem pyRound_intCast (n : ℤ) : pyRound (n : ℚ) = n := by
  have h0 : ((n : ℚ) - (⌊(n : ℚ)⌋ : ℚ)) = 0 := by simp
  simp [pyRound, h0]

theorem pyEndsWith_append (n suffix : List Char) :
    pyEndsWith (n ++ suffix) suffix = true := by
  unfold pyEndsWith
  have hlen : (n ++ suffix).length - suffix.length = n.length := by
    simp
  rw [hlen, List.drop_left]
  exact beq_self_eq_true suffix

theorem pyEndsWith_iff_suffix {s suffix : List Char} :
    pyEndsWith s suffix = true ↔ suffix <:+ s := by
  constructor
  · intro h
    have heq : s.drop (s.length - suffix.length) = suffix := by
      simpa [pyEndsWith] using h
    rw [← heq]
    exact List.drop_suffix _ _
  · rintro ⟨t, rfl⟩
    exact pyEndsWith_append t suffix

theorem captureBgScales_lookup_lt (bgs : List BGImage) :
    ∀ (props : List (Nat × ℚ)) (i j : Nat), j < i →
      (captureBgScales props i bgs).lookup j = props.lookup j := by
  induction bgs with
  | nil => intro props i j _; rfl
  | cons bg bgs ih =>
      intro props i j h
      simp only [captureBgScales]
      rw [ih _ (i + 1) j (Nat.lt_succ_of_lt h)]
      by_cases hs : bg.has_scale
      · have hne : (j == i) = false := by simpa using Nat.ne_of_lt h
        simp [hs, List.lookup, hne]
      · simp [hs]

theorem captureBgScales_lookup_get (bgs : List BGImage) :
    ∀ (props : List (Nat × ℚ)) (i j : Nat) (h : j < bgs.length),
      (bgs.get ⟨j, h⟩).has_scale = true →
      (captureBgScales props i bgs).lookup (i + j) = some (bgs.get ⟨j, h⟩).scale := by
  induction bgs with
  | nil => intro _ _ j h; exact absurd h (Nat.not_lt_zero j)
  | cons bg bgs ih =>
      intro props i j h hs
      cases j with
      | zero =>
          simp only [captureBgScales]
          rw [captureBgScales_lookup_lt bgs _ (i + 1) (i + 0) (by omega)]
          simp only [List.get] at hs
          simp [hs, List.lookup]
      | succ j' =>
          simp only [captureBgScales]
          have htail := ih (if bg.has_scale then (i, bg.scale) :: props else props)
            (i + 1) j' (by simpa using Nat.lt_of_succ_lt_succ h) (by simpa using hs)
          rw [show i + (j' + 1) = (i + 1) + j' by omega]
          simpa using htail

theorem restoreBgImages_roundtrip (bgs : List BGImage) :
    ∀ (props : List (Nat × ℚ)) (i : Nat) (c : ℚ),
      restoreBgImages (scaleBgImages bgs c) i (captureBgScales props i bgs) = bgs := by
  induction bgs with
  | nil => intro props i c; rfl
  | cons bg bgs ih =>
      intro props i c
      obtain ⟨bhs, bsc⟩ := bg
      cases bhs with
      | true =>
          simp only [scaleBgImages, List.map_cons, captureBgScales,
            restoreBgImages, if_true]
          rw [captureBgScales_lookup_lt bgs _ (i + 1) i (Nat.lt_succ_self i)]
          have hl : List.lookup i ((i, bsc) :: props) = some bsc := by
            simp [List.lookup]
          have htail := ih ((i, bsc) :: props) (i + 1) c
          simp only [scaleBgImages] at htail
          simp [hl, htail]
      | false =>
          simp only [scaleBgImages, List.map_cons, captureBgScales,
            restoreBgImages, if_false]
          have htail := ih props (i + 1) c
          simp only [scaleBgImages] at htail
          simp [htail]

theorem restoreBgImages_no_props (bgs : List BGImage) :
    ∀ i : Nat, restoreBgImages bgs i [] = bgs := by
  induction bgs with
  | nil => intro i; rfl
  | cons bg bgs ih =>
      intro i
      simp [restoreBgImages, List.lookup, ih (i + 1)]


theorem apply_finished_inv {s t : Scene}
    (h : ApplyOverscan_execute s = Except.ok (OpResult.FINISHED, t)) :
    s.camera.data.overscan_applied ≠ some true ∧
    ∃ action new_width new_height,
      computeSafeAction s.overscan_settings s.render_resolution_x
        s.render_resolution_y = Except.ok action ∧
      computeNewResolution s.overscan_settings s.render_resolution_x
        s.render_resolution_y = Except.ok (new_width, new_height) ∧
      (s.render_resolution_x : ℚ) ≠ 0 ∧
      camParam s * ((new_width : ℚ) / (s.render_resolution_x : ℚ)) ≠ 0 ∧
      t = applyFinalState s action new_width new_height := by
  unfold ApplyOverscan_execute at h
  by_cases hg : s.camera.data.overscan_applied = some true
  · rw [if_pos hg] at h
    simp at h
  · rw [if_neg hg] at h
    refine ⟨hg, ?_⟩
    by_cases ht : s.camera.data.type = CameraType.ORTHO
    · simp only [ht, if_true, if_pos, Option.getD_some] at h
      split at h
      next e heq => simp at h
      next action heq =>
        split at h
        next e heq2 => simp at h
        next new_width new_height heq2 =>
          split at h
          next e heq3 => simp at h
          next scale_factor heq3 =>
            split at h
            next e heq4 => simp at h
            next scale heq4 =>
              obtain ⟨hrx, hsfv⟩ := pydiv_ok_iff.mp heq3
              obtain ⟨hden, hscv⟩ := pydiv_ok_iff.mp heq4
              simp only [Except.ok.injEq, Prod.mk.injEq, true_and] at h
              subst hsfv
              subst hscv
              refine ⟨action, new_width, new_height, heq, heq2, hrx, ?_, ?_⟩
              · rw [camParam, if_pos ht]; exact hden
              · rw [← h]
                simp [applyFinalState, camParam, ht]
    · simp only [ht, if_false, if_neg, Option.getD_some] at h
      split at h
      next e heq => simp at h
      next action heq =>
        split at h
        next e heq2 => simp at h
        next new_width new_height heq2 =>
          split at h
          next e heq3 => simp at h
          next scale_factor heq3 =>
            split at h
            next e heq4 => simp at h
            next scale heq4 =>
              obtain ⟨hrx, hsfv⟩ := pydiv_ok_iff.mp heq3
              obtain ⟨hden, hscv⟩ := pydiv_ok_iff.mp heq4
              simp only [Except.ok.injEq, Prod.mk.injEq, true_and] at h
              subst hsfv
              subst hscv
              refine ⟨action, new_width, new_height, heq, heq2, hrx, ?_, ?_⟩
              · rw [camParam, if_neg ht]; exact hden
              · rw [← h]
                simp [applyFinalState, camParam, ht]

theorem apply_finished_eval {s : Scene} {action : ℚ × ℚ} {nw nh : ℤ}
    (hg : s.camera.data.overscan_applied ≠ some true)
    (hsa : computeSafeAction s.overscan_settings s.render_resolution_x
      s.render_resolution_y = Except.ok action)
    (hnr : computeNewResolution s.overscan_settings s.render_resolution_x
      s.render_resolution_y = Except.ok (nw, nh))
    (hrx : (s.render_resolution_x : ℚ) ≠ 0)
    (hden : camParam s * ((nw : ℚ) / (s.render_resolution_x : ℚ)) ≠ 0) :
    ApplyOverscan_execute s =
      Except.ok (OpResult.FINISHED, applyFinalState s action nw nh) := by
  unfold ApplyOverscan_execute
  rw [if_neg hg]
  by_cases ht : s.camera.data.type = CameraType.ORTHO
  · rw [camParam, if_pos ht] at hden
    simp only [ht, if_true, if_pos, Option.getD_some, hsa, hnr, pydiv_ok hrx,
      pydiv_ok hden]
    simp [applyFinalState, camParam, ht]
  · rw [camParam, if_neg ht] at hden
    simp only [ht, if_false, if_neg, Option.getD_some, hsa, hnr, pydiv_ok hrx,
      pydiv_ok hden]
    simp [applyFinalState, camParam, ht]

theorem apply_error_at_bgdiv {s : Scene} {action : ℚ × ℚ} {nw nh : ℤ}
    (hg : s.camera.data.overscan_applied ≠ some true)
    (hsa : computeSafeAction s.overscan_settings s.render_resolution_x
      s.render_resolution_y = Except.ok action)
    (hnr : computeNewResolution s.overscan_settings s.render_resolution_x
      s.render_resolution_y = Except.ok (nw, nh))
    (hrx : (s.render_resolution_x : ℚ) ≠ 0)
    (hden : camParam s * ((nw : ℚ) / (s.render_resolution_x : ℚ)) = 0) :
    ApplyOverscan_execute s = Except.error () := by
  unfold ApplyOverscan_execute
  rw [if_neg hg]
  by_cases ht : s.camera.data.type = CameraType.ORTHO
  · rw [camParam, if_pos ht] at hden
    simp only [ht, if_true, if_pos, Option.getD_some, hsa, hnr, pydiv_ok hrx]
    simp [pydiv, hden]
  · rw [camParam, if_neg ht] at hden
    simp only [ht, if_false, if_neg, Option.getD_some, hsa, hnr, pydiv_ok hrx]
    simp [pydiv, hden]

theorem computeSafeAction_percentage {o : OverscanSettings} {ow oh : ℤ}
    {a : ℚ × ℚ} (hm : o.mode = Mode.PERCENTAGE)
    (h : computeSafeAction o ow oh = Except.ok a) :
    o.percentage + 100 ≠ 0 ∧
      a = (1 - 100 / (o.percentage + 100), 1 - 100 / (o.percentage + 100)) := by
  rw [computeSafeAction, hm] at h
  by_cases hp : o.percentage + 100 = 0
  · simp [pydiv, hp] at h
  · simp [pydiv, hp] at h
    exact ⟨hp, h.symm⟩

theorem computeSafeAction_pixels {o : OverscanSettings} {ow oh : ℤ}
    {a : ℚ × ℚ} (hm : o.mode = Mode.PIXELS)
    (h : computeSafeAction o ow oh = Except.ok a) :
    (o.extra_pixels : ℚ) + (ow : ℚ) ≠ 0 ∧ (o.extra_pixels : ℚ) + (oh : ℚ) ≠ 0 ∧
      a = ((o.extra_pixels : ℚ) / 2 / ((o.extra_pixels : ℚ) + (ow : ℚ)) * 2,
           (o.extra_pixels : ℚ) / 2 / ((o.extra_pixels : ℚ) + (oh : ℚ)) * 2) := by
  rw [computeSafeAction, hm] at h
  by_cases hx : (o.extra_pixels : ℚ) + (ow : ℚ) = 0
  · simp [pydiv, hx] at h
  · by_cases hy : (o.extra_pixels : ℚ) + (oh : ℚ) = 0
    · simp [pydiv, hx, hy] at h
    · simp [pydiv, hx, hy] at h
      exact ⟨hx, hy, h.symm⟩

theorem computeSafeAction_specific {o : OverscanSettings} {ow oh : ℤ}
    {a : ℚ × ℚ} (hm : o.mode = Mode.SPECIFIC_X)
    (h : computeSafeAction o ow oh = Except.ok a) :
    (o.specific_x_resolution : ℚ) ≠ 0 ∧
      a = (((o.specific_x_resolution : ℚ) - (ow : ℚ)) / (o.specific_x_resolution : ℚ),
           ((o.specific_x_resolution : ℚ) - (ow : ℚ)) / (o.specific_x_resolution : ℚ)) := by
  rw [computeSafeAction, hm] at h
  by_cases hx : (o.specific_x_resolution : ℚ) = 0
  · simp [pydiv, hx] at h
  · simp [pydiv, hx] at h
    exact ⟨hx, h.symm⟩

theorem computeNewResolution_percentage {o : OverscanSettings} {ow oh : ℤ}
    (hm : o.mode = Mode.PERCENTAGE) :
    computeNewResolution o ow oh =
      Except.ok (pyRound ((ow : ℚ) * (1 + o.percentage / 100)),
        pyRound ((oh : ℚ) * (1 + o.percentage / 100))) := by
  rw [computeNewResolution, hm]

theorem computeNewResolution_pixels {o : OverscanSettings} {ow oh : ℤ}
    (hm : o.mode = Mode.PIXELS) :
    computeNewResolution o ow oh =
      Except.ok (ow + o.extra_pixels, oh + o.extra_pixels) := by
  rw [computeNewResolution, hm]

theorem computeNewResolution_specific {o : OverscanSettings} {ow oh nw nh : ℤ}
    (hm : o.mode = Mode.SPECIFIC_X)
    (h : computeNewResolution o ow oh = Except.ok (nw, nh)) :
    (ow : ℚ) ≠ 0 ∧ nw = o.specific_x_resolution ∧
      nh = pyRound ((o.specific_x_resolution : ℚ) * ((oh : ℚ) / (ow : ℚ))) := by
  rw [computeNewResolution, hm] at h
  by_cases hx : (ow : ℚ) = 0
  · simp [pydiv, hx] at h
  · simp [pydiv, hx] at h
    exact ⟨hx, h.1.symm, h.2.symm⟩

theorem computeNewResolution_specific_ok {o : OverscanSettings} {ow oh : ℤ}
    (hm : o.mode = Mode.SPECIFIC_X) (hx : (ow : ℚ) ≠ 0) :
    computeNewResolution o ow oh =
      Except.ok (o.specific_x_resolution,
        pyRound ((o.specific_x_resolution : ℚ) * ((oh : ℚ) / (ow : ℚ)))) := by
  rw [computeNewResolution, hm]
  simp [pydiv, hx]

/-! ## Claim theorems -/

/-- C1: when the `overscan_applied` flag is true, `ApplyOverscan.execute`
reports the warning outcome (`CANCELLED`) and returns the scene state
completely unchanged; hence after a successful apply, a second apply
without an intervening revert cancels and leaves the post-apply state
untouched. -/
theorem C1_double_apply_guard (s : Scene) :
    (s.camera.data.overscan_applied = some true →
      ApplyOverscan_execute s = Except.ok (OpResult.CANCELLED, s)) ∧
    (∀ t : Scene, ApplyOverscan_execute s = Except.ok (OpResult.FINISHED, t) →
      ApplyOverscan_execute t = Except.ok (OpResult.CANCELLED, t)) := by
  constructor
  · intro hg
    unfold ApplyOverscan_execute
    rw [if_pos hg]
  · intro t h
    obtain ⟨-, a, nw, nh, -, -, -, -, rfl⟩ := apply_finished_inv h
    have hg : (applyFinalState s a nw nh).camera.data.overscan_applied = some true := by
      simp [applyFinalState]
    unfold ApplyOverscan_execute
    rw [if_pos hg]

/-- C2: a successful apply followed immediately by revert restores the
render resolution, the camera's `sensor_width` and `ortho_scale`, and every
background image (in particular every scale) to their exact pre-apply
values, and leaves the applied flag false. -/
theorem C2_apply_revert_roundtrip (s t : Scene)
    (h : ApplyOverscan_execute s = Except.ok (OpResult.FINISHED, t)) :
    (RevertOverscan_execute t).2.render_resolution_x = s.render_resolution_x ∧
    (RevertOverscan_execute t).2.render_resolution_y = s.render_resolution_y ∧
    (RevertOverscan_execute t).2.camera.data.sensor_width =
      s.camera.data.sensor_width ∧
    (RevertOverscan_execute t).2.camera.data.ortho_scale =
      s.camera.data.ortho_scale ∧
    (RevertOverscan_execute t).2.camera.data.background_images =
      s.camera.data.background_images ∧
    (RevertOverscan_execute t).2.camera.data.overscan_applied = some false := by
  obtain ⟨-, a, nw, nh, -, -, -, -, rfl⟩ := apply_finished_inv h
  by_cases ht : s.camera.data.type = CameraType.ORTHO <;>
    simp [RevertOverscan_execute, applyFinalState, ht, restoreBgImages_roundtrip]

/-- C3: on a successful apply the new render resolution is, per mode:
PERCENTAGE, `round(original * (1 + percentage/100))` on both axes;
PIXELS, `original + extra_pixels` on both axes; SPECIFIC_X, width
`specific_x_resolution` and height
`round(specific_x_resolution * (original_height/original_width))`. -/
theorem C3_new_resolution (s t : Scene)
    (h : ApplyOverscan_execute s = Except.ok (OpResult.FINISHED, t)) :
    (s.overscan_settings.mode = Mode.PERCENTAGE →
      t.render_resolution_x =
        pyRound ((s.render_resolution_x : ℚ) *
          (1 + s.overscan_settings.percentage / 100)) ∧
      t.render_resolution_y =
        pyRound ((s.render_resolution_y : ℚ) *
          (1 + s.overscan_settings.percentage / 100))) ∧
    (s.overscan_settings.mode = Mode.PIXELS →
      t.render_resolution_x =
        s.render_resolution_x + s.overscan_settings.extra_pixels ∧
      t.render_resolution_y =
        s.render_resolution_y + s.overscan_settings.extra_pixels) ∧
    (s.overscan_settings.mode = Mode.SPECIFIC_X →
      t.render_resolution_x = s.overscan_settings.specific_x_resolution ∧
      t.render_resolution_y =
        pyRound ((s.overscan_settings.specific_x_resolution : ℚ) *
          ((s.render_resolution_y : ℚ) / (s.render_resolution_x : ℚ)))) := by
  obtain ⟨-, a, nw, nh, -, hnr, -, -, rfl⟩ := apply_finished_inv h
  refine ⟨?_, ?_, ?_⟩ <;> intro hm
  · rw [computeNewResolution_percentage hm] at hnr
    simp only [Except.ok.injEq, Prod.mk.injEq] at hnr
    simp [applyFinalState, hnr.1.symm, hnr.2.symm]
  · rw [computeNewResolution_pixels hm] at hnr
    simp only [Except.ok.injEq, Prod.mk.injEq] at hnr
    simp [applyFinalState, hnr.1.symm, hnr.2.symm]
  · obtain ⟨-, h1, h2⟩ := computeNewResolution_specific hm hnr
    simp [applyFinalState, h1, h2]

/-- C4: on a successful apply the title safe margin is `(1, 1)` in every
mode, and the action safe margin is, per mode: PERCENTAGE,
`1 - 100/(percentage + 100)` on both axes; PIXELS,
`(extra_pixels/2)/(extra_pixels + original_dim) * 2` computed per axis
(width for x, height for y); SPECIFIC_X,
`(specific_x_resolution - original_width)/specific_x_resolution` on both
axes. -/
theorem C4_safe_margins (s t : Scene)
    (h : ApplyOverscan_execute s = Except.ok (OpResult.FINISHED, t)) :
    t.safe_areas.title = (1, 1) ∧
    (s.overscan_settings.mode = Mode.PERCENTAGE →
      t.safe_areas.action =
        (1 - 100 / (s.overscan_settings.percentage + 100),
         1 - 100 / (s.overscan_settings.percentage + 100))) ∧
    (s.overscan_settings.mode = Mode.PIXELS →
      t.safe_areas.action =
        ((s.overscan_settings.extra_pixels : ℚ) / 2 /
            ((s.overscan_settings.extra_pixels : ℚ) + (s.render_resolution_x : ℚ)) * 2,
         (s.overscan_settings.extra_pixels : ℚ) / 2 /
            ((s.overscan_settings.extra_pixels : ℚ) + (s.render_resolution_y : ℚ)) * 2)) ∧
    (s.overscan_settings.mode = Mode.SPECIFIC_X →
      t.safe_areas.action =
        (((s.overscan_settings.specific_x_resolution : ℚ) - (s.render_resolution_x : ℚ)) /
            (s.overscan_settings.specific_x_resolution : ℚ),
         ((s.overscan_settings.specific_x_resolution : ℚ) - (s.render_resolution_x : ℚ)) /
            (s.overscan_settings.specific_x_resolution : ℚ))) := by
  obtain ⟨-, a, nw, nh, hsa, -, -, -, rfl⟩ := apply_finished_inv h
  refine ⟨by simp [applyFinalState], ?_, ?_, ?_⟩ <;> intro hm
  · obtain ⟨-, ha⟩ := computeSafeAction_percentage hm hsa
    simp [applyFinalState, ha]
  · obtain ⟨-, -, ha⟩ := computeSafeAction_pixels hm hsa
    simp [applyFinalState, ha]
  · obtain ⟨-, ha⟩ := computeSafeAction_specific hm hsa
    simp [applyFinalState, ha]

/-- C5: on a successful apply the camera parameter (`sensor_width` for
perspective cameras, `ortho_scale` for orthographic ones) equals the
captured original times `new_width / original_width`, every background
image's pre-mutation scale is captured into the per-index property, and
each such image's scale afterwards is its pre-mutation scale times the
inverse ratio original parameter / new parameter. -/
theorem C5_camera_param_and_bg (s t : Scene)
    (h : ApplyOverscan_execute s = Except.ok (OpResult.FINISHED, t)) :
    camParam t =
      camParam s * ((t.render_resolution_x : ℚ) / (s.render_resolution_x : ℚ)) ∧
    ∀ (j : Nat) (bg : BGImage),
      s.camera.data.background_images[j]? = some bg → bg.has_scale = true →
      t.camera.data.bg_image_scale.lookup j = some bg.scale ∧
      (t.camera.data.background_images[j]?).map BGImage.scale =
        some (bg.scale * (camParam s / camParam t)) := by
  obtain ⟨-, a, nw, nh, -, -, -, -, rfl⟩ := apply_finished_inv h
  have hparam :
      camParam (applyFinalState s a nw nh) =
        camParam s * ((nw : ℚ) / (s.render_resolution_x : ℚ)) := by
    by_cases ht : s.camera.data.type = CameraType.ORTHO <;>
      simp [applyFinalState, camParam, ht]
  have hrx : (applyFinalState s a nw nh).render_resolution_x = nw := by
    simp [applyFinalState]
  refine ⟨by rw [hparam, hrx], ?_⟩
  intro j bg hj hs
  obtain ⟨hjlt, hjget⟩ := List.getElem?_eq_some_iff.mp hj
  constructor
  · have hcap := captureBgScales_lookup_get s.camera.data.background_images
      s.camera.data.bg_image_scale 0 j hjlt (by rw [List.get_eq_getElem, hjget]; exact hs)
    have : (applyFinalState s a nw nh).camera.data.bg_image_scale =
        captureBgScales s.camera.data.bg_image_scale 0
          s.camera.data.background_images := by
      simp [applyFinalState]
    rw [this]
    simpa [List.get_eq_getElem, hjget] using hcap
  · have hbgs : (applyFinalState s a nw nh).camera.data.background_images =
        scaleBgImages s.camera.data.background_images
          (camParam s / (camParam s * ((nw : ℚ) / (s.render_resolution_x : ℚ)))) := by
      by_cases ht : s.camera.data.type = CameraType.ORTHO <;>
        simp [applyFinalState, scaleBgImages, camParam, ht]
    rw [hbgs, hparam]
    simp only [scaleBgImages, List.getElem?_map, hj, Option.map_some]
    simp [hs]

/-- C6: revert with no prior capture (no `original_*` custom properties,
no per-index background properties) does not fail: it finishes, sets the
render resolution to the stored settings defaults, leaves the camera
parameters and background images at their coded fallback values (their
current values), resets both safe margins to `(1, 1)`, and sets the
applied flag to false. -/
theorem C6_revert_without_capture (s : Scene)
    (hw : s.camera.data.original_width = none)
    (hh : s.camera.data.original_height = none)
    (hsw : s.camera.data.original_sensor_width = none)
    (hos : s.camera.data.original_ortho_scale = none)
    (hbg : s.camera.data.bg_image_scale = []) :
    (RevertOverscan_execute s).1 = OpResult.FINISHED ∧
    (RevertOverscan_execute s).2.render_resolution_x =
      s.overscan_settings.original_width ∧
    (RevertOverscan_execute s).2.render_resolution_y =
      s.overscan_settings.original_height ∧
    (RevertOverscan_execute s).2.camera.data.sensor_width =
      s.camera.data.sensor_width ∧
    (RevertOverscan_execute s).2.camera.data.ortho_scale =
      s.camera.data.ortho_scale ∧
    (RevertOverscan_execute s).2.camera.data.background_images =
      s.camera.data.background_images ∧
    (RevertOverscan_execute s).2.safe_areas.action = (1, 1) ∧
    (RevertOverscan_execute s).2.safe_areas.title = (1, 1) ∧
    (RevertOverscan_execute s).2.camera.data.overscan_applied = some false := by
  by_cases ht : s.camera.data.type = CameraType.ORTHO <;>
    simp [RevertOverscan_execute, ht, hw, hh, hsw, hos, hbg,
      restoreBgImages_no_props]

/-- C7: the apply-side name step is idempotent (a second run never doubles
the suffix), appends the suffix exactly when it is absent, and the
revert-side name step leaves a non-suffixed name unchanged. -/
theorem C7_name_step (name : List Char) :
    applyNameStep (applyNameStep name) = applyNameStep name ∧
    (pyEndsWith name oSuffix = true → applyNameStep name = name) ∧
    (pyEndsWith name oSuffix = false → applyNameStep name = name ++ oSuffix) ∧
    (pyEndsWith name oSuffix = false → revertNameStep name = name) := by
  refine ⟨?_, ?_, ?_, ?_⟩
  · by_cases he : pyEndsWith name oSuffix = true
    · simp [applyNameStep, he]
    · have he' : pyEndsWith name oSuffix = false := by simpa using he
      simp [applyNameStep, he', pyEndsWith_append]
  · intro he
    simp [applyNameStep, he]
  · intro he
    simp [applyNameStep, he]
  · intro he
    simp [revertNameStep, he]

/-- C10: if the camera name already ends in `"_o"` before apply, a
successful apply leaves the name unchanged and the following revert drops
the last two characters, so the name after the apply–revert cycle differs
from the pre-apply name. -/
theorem C10_presuffixed_name_cycle (s t : Scene)
    (hend : pyEndsWith s.camera.name oSuffix = true)
    (h : ApplyOverscan_execute s = Except.ok (OpResult.FINISHED, t)) :
    t.camera.name = s.camera.name ∧
    (RevertOverscan_execute t).2.camera.name =
      s.camera.name.take (s.camera.name.length - 2) ∧
    (RevertOverscan_execute t).2.camera.name ≠ s.camera.name := by
  obtain ⟨-, a, nw, nh, -, -, -, -, rfl⟩ := apply_finished_inv h
  have hname : (applyFinalState s a nw nh).camera.name = s.camera.name := by
    simp [applyFinalState, applyNameStep, hend]
  have hlen : 2 ≤ s.camera.name.length := by
    have hsuf : oSuffix <:+ s.camera.name := pyEndsWith_iff_suffix.mp hend
    simpa [oSuffix] using hsuf.length_le
  have h1 : (RevertOverscan_execute (applyFinalState s a nw nh)).2.camera.name =
      s.camera.name.take (s.camera.name.length - 2) := by
    simp [RevertOverscan_execute, hname, revertNameStep, hend]
  refine ⟨hname, h1, ?_⟩
  intro hcontra
  have hlt : (s.camera.name.take (s.camera.name.length - 2)).length <
      s.camera.name.length := by
    rw [List.length_take]
    omega
  rw [h1] at hcontra
  rw [hcontra] at hlt
  exact lt_irrefl _ hlt

/-- C9: when the applied guard passes and the captured original width is
zero, apply raises a division-by-zero error in every mode and for every
camera projection type (the scale-factor division `new_width /
original_width`, and in SPECIFIC_X mode already the aspect-ratio division
`original_height / original_width`); with original width at least 1 these
divisions are well-defined. -/
theorem C9_zero_width_division :
    (∀ s : Scene, s.camera.data.overscan_applied ≠ some true →
      s.render_resolution_x = 0 →
      ApplyOverscan_execute s = Except.error ()) ∧
    (∀ (a : ℚ) (ow : ℤ), 1 ≤ ow →
      pydiv a (ow : ℚ) = Except.ok (a / (ow : ℚ))) := by
  constructor
  · intro s hg hrx
    unfold ApplyOverscan_execute
    rw [if_neg hg]
    by_cases ht : s.camera.data.type = CameraType.ORTHO
    all_goals
      simp only [ht, if_true, if_false, Option.getD_some]
    all_goals
      cases hsa : computeSafeAction s.overscan_settings s.render_resolution_x
          s.render_resolution_y with
      | error e => simp [hsa]
      | ok a =>
          rcases hm : s.overscan_settings.mode with _ | _ | _ <;>
            simp [hsa, computeNewResolution, hm, pydiv, hrx]
  · intro a ow h
    exact pydiv_ok (by exact_mod_cast (by omega : ow ≠ 0))

/-! ## Legacy-revision lemmas (for the refinement claim) -/

theorem Legacy_computeNewResolution_eq (o : OverscanSettings) (ow oh : ℤ) :
    Legacy.computeNewResolution o ow oh = computeNewResolution o ow oh := rfl

theorem legacy_apply_finished_eval {s : Scene} {nw nh : ℤ}
    (hg : s.camera.data.overscan_applied ≠ some true)
    (hnr : Legacy.computeNewResolution s.overscan_settings s.render_resolution_x
      s.render_resolution_y = Except.ok (nw, nh))
    (hrx : (s.render_resolution_x : ℚ) ≠ 0)
    (hden : s.camera.data.sensor_width *
      ((nw : ℚ) / (s.render_resolution_x : ℚ)) ≠ 0) :
    Legacy.ApplyOverscan_execute s =
      Except.ok (OpResult.FINISHED, legacyFinalState s nw nh) := by
  unfold Legacy.ApplyOverscan_execute
  rw [if_neg hg]
  simp only [Option.getD_some, hnr, pydiv_ok hrx, pydiv_ok hden]
  simp [legacyFinalState]

theorem legacy_apply_error_at_bgdiv {s : Scene} {nw nh : ℤ}
    (hg : s.camera.data.overscan_applied ≠ some true)
    (hnr : Legacy.computeNewResolution s.overscan_settings s.render_resolution_x
      s.render_resolution_y = Except.ok (nw, nh))
    (hrx : (s.render_resolution_x : ℚ) ≠ 0)
    (hden : s.camera.data.sensor_width *
      ((nw : ℚ) / (s.render_resolution_x : ℚ)) = 0) :
    Legacy.ApplyOverscan_execute s = Except.error () := by
  unfold Legacy.ApplyOverscan_execute
  rw [if_neg hg]
  simp only [Option.getD_some, hnr, pydiv_ok hrx]
  simp [pydiv, hden]

theorem C8_aux {s : Scene} {a : ℚ × ℚ} {nw nh : ℤ}
    (htype : s.camera.data.type ≠ CameraType.ORTHO)
    (hg : ¬s.camera.data.overscan_applied = some true)
    (hsa : computeSafeAction s.overscan_settings s.render_resolution_x
      s.render_resolution_y = Except.ok a)
    (hnr : computeNewResolution s.overscan_settings s.render_resolution_x
      s.render_resolution_y = Except.ok (nw, nh))
    (hrxQ : (s.render_resolution_x : ℚ) ≠ 0) :
    (ApplyOverscan_execute s = Except.error () ↔
      Legacy.ApplyOverscan_execute s = Except.error ()) ∧
    (∀ r₁ t₁ r₂ t₂,
      ApplyOverscan_execute s = Except.ok (r₁, t₁) →
      Legacy.ApplyOverscan_execute s = Except.ok (r₂, t₂) →
      r₁ = r₂ ∧
      t₁.render_resolution_x = t₂.render_resolution_x ∧
      t₁.render_resolution_y = t₂.render_resolution_y ∧
      t₁.camera.data.sensor_width = t₂.camera.data.sensor_width ∧
      t₁.camera.data.ortho_scale = t₂.camera.data.ortho_scale ∧
      t₁.camera.data.background_images = t₂.camera.data.background_images ∧
      t₁.camera.name = t₂.camera.name) := by
  have hlnr : Legacy.computeNewResolution s.overscan_settings s.render_resolution_x
      s.render_resolution_y = Except.ok (nw, nh) := by
    rw [Legacy_computeNewResolution_eq]; exact hnr
  have hcam : camParam s = s.camera.data.sensor_width := by
    rw [camParam, if_neg htype]
  by_cases hden : s.camera.data.sensor_width *
      ((nw : ℚ) / (s.render_resolution_x : ℚ)) = 0
  · have hc := apply_error_at_bgdiv hg hsa hnr hrxQ (by rw [hcam]; exact hden)
    have hl := legacy_apply_error_at_bgdiv hg hlnr hrxQ hden
    refine ⟨by simp [hc, hl], ?_⟩
    intro r₁ t₁ r₂ t₂ h₁ h₂
    rw [hc] at h₁
    simp at h₁
  · have hc := apply_finished_eval hg hsa hnr hrxQ (by rw [hcam]; exact hden)
    have hl := legacy_apply_finished_eval hg hlnr hrxQ hden
    refine ⟨by simp [hc, hl], ?_⟩
    intro r₁ t₁ r₂ t₂ h₁ h₂
    rw [hc] at h₁
    rw [hl] at h₂
    simp only [Except.ok.injEq, Prod.mk.injEq] at h₁ h₂
    obtain ⟨h1a, h1b⟩ := h₁
    obtain ⟨h2a, h2b⟩ := h₂
    subst h1a
    subst h1b
    subst h2a
    subst h2b
    refine ⟨rfl, ?_, ?_, ?_, ?_, ?_, ?_⟩ <;>
      simp [applyFinalState, legacyFinalState, camParam, htype]

/-- C8 (amended): restricted to perspective (non-orthographic) cameras,
with settings in their declared ranges and a positive original resolution,
the current and legacy apply operators implement the same toggle: they
raise a division error together, and on success they agree on the outcome
flag, render resolution, `sensor_width`, `ortho_scale`, background images,
and camera name — differing only in the safe-area fields.  (For ORTHO
cameras the two revisions genuinely diverge: the current one scales
`ortho_scale`, the legacy one scales `sensor_width`.) -/
theorem C8_legacy_equivalence_persp (s : Scene)
    (htype : s.camera.data.type ≠ CameraType.ORTHO)
    (hp : 0 ≤ s.overscan_settings.percentage)
    (he : 0 ≤ s.overscan_settings.extra_pixels)
    (hsx : 1 ≤ s.overscan_settings.specific_x_resolution)
    (hw : 1 ≤ s.render_resolution_x)
    (hh : 1 ≤ s.render_resolution_y) :
    (ApplyOverscan_execute s = Except.error () ↔
      Legacy.ApplyOverscan_execute s = Except.error ()) ∧
    (∀ r₁ t₁ r₂ t₂,
      ApplyOverscan_execute s = Except.ok (r₁, t₁) →
      Legacy.ApplyOverscan_execute s = Except.ok (r₂, t₂) →
      r₁ = r₂ ∧
      t₁.render_resolution_x = t₂.render_resolution_x ∧
      t₁.render_resolution_y = t₂.render_resolution_y ∧
      t₁.camera.data.sensor_width = t₂.camera.data.sensor_width ∧
      t₁.camera.data.ortho_scale = t₂.camera.data.ortho_scale ∧
      t₁.camera.data.background_images = t₂.camera.data.background_images ∧
      t₁.camera.name = t₂.camera.name) := by
  by_cases hg : s.camera.data.overscan_applied = some true
  · have hc : ApplyOverscan_execute s = Except.ok (OpResult.CANCELLED, s) := by
      unfold ApplyOverscan_execute; rw [if_pos hg]
    have hl : Legacy.ApplyOverscan_execute s =
        Except.ok (OpResult.CANCELLED, s) := by
      unfold Legacy.ApplyOverscan_execute; rw [if_pos hg]
    refine ⟨by simp [hc, hl], ?_⟩
    intro r₁ t₁ r₂ t₂ h₁ h₂
    rw [hc] at h₁
    rw [hl] at h₂
    simp only [Except.ok.injEq, Prod.mk.injEq] at h₁ h₂
    obtain ⟨h1a, h1b⟩ := h₁
    obtain ⟨h2a, h2b⟩ := h₂
    subst h1a
    subst h1b
    subst h2a
    subst h2b
    exact ⟨rfl, rfl, rfl, rfl, rfl, rfl, rfl⟩
  · have hrxQ : (s.render_resolution_x : ℚ) ≠ 0 := by
      have h0 : s.render_resolution_x ≠ 0 := by omega
      exact_mod_cast h0
    have hwQ : (1 : ℚ) ≤ (s.render_resolution_x : ℚ) := by exact_mod_cast hw
    have hhQ : (1 : ℚ) ≤ (s.render_resolution_y : ℚ) := by exact_mod_cast hh
    have heQ : (0 : ℚ) ≤ (s.overscan_settings.extra_pixels : ℚ) := by
      exact_mod_cast he
    rcases hm : s.overscan_settings.mode with _ | _ | _
    · have hpd : s.overscan_settings.percentage + 100 ≠ 0 :=
        ne_of_gt (by linarith)
      obtain ⟨a, hsa⟩ : ∃ a, computeSafeAction s.overscan_settings
          s.render_resolution_x s.render_resolution_y = Except.ok a :=
        ⟨_, by simp only [computeSafeAction, hm, pydiv_ok hpd]; rfl⟩
      exact C8_aux htype hg hsa (computeNewResolution_percentage hm) hrxQ
    · have hdx : (s.overscan_settings.extra_pixels : ℚ) +
          (s.render_resolution_x : ℚ) ≠ 0 := ne_of_gt (by linarith)
      have hdy : (s.overscan_settings.extra_pixels : ℚ) +
          (s.render_resolution_y : ℚ) ≠ 0 := ne_of_gt (by linarith)
      obtain ⟨a, hsa⟩ : ∃ a, computeSafeAction s.overscan_settings
          s.render_resolution_x s.render_resolution_y = Except.ok a :=
        ⟨_, by simp only [computeSafeAction, hm, pydiv_ok hdx, pydiv_ok hdy]; rfl⟩
      exact C8_aux htype hg hsa (computeNewResolution_pixels hm) hrxQ
    · have hds : (s.overscan_settings.specific_x_resolution : ℚ) ≠ 0 := by
        have h0 : s.overscan_settings.specific_x_resolution ≠ 0 := by omega
        exact_mod_cast h0
      obtain ⟨a, hsa⟩ : ∃ a, computeSafeAction s.overscan_settings
          s.render_resolution_x s.render_resolution_y = Except.ok a :=
        ⟨_, by simp only [computeSafeAction, hm, pydiv_ok hds]; rfl⟩
      exact C8_aux htype hg hsa (computeNewResolution_specific_ok hm hrxQ) hrxQ

/-! ## Concrete evaluations and witnesses -/

theorem scenePix_apply :
    ApplyOverscan_execute scenePix =
      Except.ok (OpResult.FINISHED,
        applyFinalState scenePix ((1 : ℚ)/2, (1 : ℚ)/2) 2 2) := by
  refine apply_finished_eval (by decide) ?_ ?_ ?_ ?_
  · norm_num [computeSafeAction, scenePix, pydiv]
  · norm_num [computeNewResolution, scenePix]
  · norm_num [scenePix]
  · rw [camParam, if_neg (by decide : ¬scenePix.camera.data.type = CameraType.ORTHO)]
    norm_num [scenePix]

theorem scenePct_apply :
    ApplyOverscan_execute scenePct =
      Except.ok (OpResult.FINISHED,
        applyFinalState scenePct ((1 : ℚ)/11, (1 : ℚ)/11) 2112 1188) := by
  refine apply_finished_eval (by decide) ?_ ?_ ?_ ?_
  · norm_num [computeSafeAction, scenePct, pydiv]
  · have h1 : ((scenePct.render_resolution_x : ℚ) *
        (1 + scenePct.overscan_settings.percentage / 100)) = ((2112 : ℤ) : ℚ) := by
      norm_num [scenePct]
    have h2 : ((scenePct.render_resolution_y : ℚ) *
        (1 + scenePct.overscan_settings.percentage / 100)) = ((1188 : ℤ) : ℚ) := by
      norm_num [scenePct]
    rw [computeNewResolution_percentage rfl, h1, h2, pyRound_intCast, pyRound_intCast]
  · norm_num [scenePct]
  · rw [camParam, if_neg (by decide : ¬scenePct.camera.data.type = CameraType.ORTHO)]
    norm_num [scenePct]

theorem sceneSx_apply :
    ApplyOverscan_execute sceneSx =
      Except.ok (OpResult.FINISHED,
        applyFinalState sceneSx ((1 : ℚ)/4, (1 : ℚ)/4) 2560 1440) := by
  refine apply_finished_eval (by decide) ?_ ?_ ?_ ?_
  · norm_num [computeSafeAction, sceneSx, pydiv]
  · have h3 : ((sceneSx.overscan_settings.specific_x_resolution : ℚ) *
        ((sceneSx.render_resolution_y : ℚ) / (sceneSx.render_resolution_x : ℚ))) =
        ((1440 : ℤ) : ℚ) := by norm_num [sceneSx]
    rw [computeNewResolution_specific_ok rfl (by norm_num [sceneSx]), h3,
      pyRound_intCast]
    norm_num [sceneSx]
  · norm_num [sceneSx]
  · rw [camParam, if_neg (by decide : ¬sceneSx.camera.data.type = CameraType.ORTHO)]
    norm_num [sceneSx]

theorem scenePix100_apply :
    ApplyOverscan_execute scenePix100 =
      Except.ok (OpResult.FINISHED,
        applyFinalState scenePix100 ((5 : ℚ)/101, (5 : ℚ)/59) 2020 1180) := by
  refine apply_finished_eval (by decide) ?_ ?_ ?_ ?_
  · norm_num [computeSafeAction, scenePix100, pydiv]
  · norm_num [computeNewResolution, scenePix100]
  · norm_num [scenePix100]
  · rw [camParam,
      if_neg (by decide : ¬scenePix100.camera.data.type = CameraType.ORTHO)]
    norm_num [scenePix100]

theorem sceneSuf_apply :
    ApplyOverscan_execute sceneSuf =
      Except.ok (OpResult.FINISHED,
        applyFinalState sceneSuf ((1 : ℚ)/2, (1 : ℚ)/2) 2 2) := by
  refine apply_finished_eval (by decide) ?_ ?_ ?_ ?_
  · norm_num [computeSafeAction, sceneSuf, pydiv]
  · norm_num [computeNewResolution, sceneSuf]
  · norm_num [sceneSuf]
  · rw [camParam, if_neg (by decide : ¬sceneSuf.camera.data.type = CameraType.ORTHO)]
    norm_num [sceneSuf]

theorem sceneOrtho_apply :
    ApplyOverscan_execute sceneOrtho =
      Except.ok (OpResult.FINISHED,
        applyFinalState sceneOrtho ((1 : ℚ)/2, (1 : ℚ)/2) 2 2) := by
  refine apply_finished_eval (by decide) ?_ ?_ ?_ ?_
  · norm_num [computeSafeAction, sceneOrtho, pydiv]
  · norm_num [computeNewResolution, sceneOrtho]
  · norm_num [sceneOrtho]
  · rw [camParam, if_pos (by decide : sceneOrtho.camera.data.type = CameraType.ORTHO)]
    norm_num [sceneOrtho]

theorem sceneOrtho_legacy_apply :
    Legacy.ApplyOverscan_execute sceneOrtho =
      Except.ok (OpResult.FINISHED, legacyFinalState sceneOrtho 2 2) := by
  refine legacy_apply_finished_eval (by decide) ?_ ?_ ?_
  · rw [Legacy_computeNewResolution_eq]
    norm_num [computeNewResolution, sceneOrtho]
  · norm_num [sceneOrtho]
  · norm_num [sceneOrtho]

theorem C1_witness :
    ApplyOverscan_execute sceneApplied =
      Except.ok (OpResult.CANCELLED, sceneApplied) :=
  (C1_double_apply_guard sceneApplied).1 rfl

theorem C2_witness :
    (RevertOverscan_execute (applyFinalState scenePix ((1 : ℚ)/2, (1 : ℚ)/2)
      2 2)).2.render_resolution_x = scenePix.render_resolution_x ∧
    (RevertOverscan_execute (applyFinalState scenePix ((1 : ℚ)/2, (1 : ℚ)/2)
      2 2)).2.render_resolution_y = scenePix.render_resolution_y ∧
    (RevertOverscan_execute (applyFinalState scenePix ((1 : ℚ)/2, (1 : ℚ)/2)
      2 2)).2.camera.data.sensor_width = scenePix.camera.data.sensor_width ∧
    (RevertOverscan_execute (applyFinalState scenePix ((1 : ℚ)/2, (1 : ℚ)/2)
      2 2)).2.camera.data.ortho_scale = scenePix.camera.data.ortho_scale ∧
    (RevertOverscan_execute (applyFinalState scenePix ((1 : ℚ)/2, (1 : ℚ)/2)
      2 2)).2.camera.data.background_images =
      scenePix.camera.data.background_images ∧
    (RevertOverscan_execute (applyFinalState scenePix ((1 : ℚ)/2, (1 : ℚ)/2)
      2 2)).2.camera.data.overscan_applied = some false :=
  C2_apply_revert_roundtrip scenePix
    (applyFinalState scenePix ((1 : ℚ)/2, (1 : ℚ)/2) 2 2) scenePix_apply

theorem C3_witness :
    (applyFinalState scenePct ((1 : ℚ)/11, (1 : ℚ)/11) 2112 1188).render_resolution_x =
      pyRound ((scenePct.render_resolution_x : ℚ) *
        (1 + scenePct.overscan_settings.percentage / 100)) ∧
    (applyFinalState scenePct ((1 : ℚ)/11, (1 : ℚ)/11) 2112 1188).render_resolution_x =
      2112 ∧
    (applyFinalState scenePct ((1 : ℚ)/11, (1 : ℚ)/11) 2112 1188).render_resolution_y =
      1188 ∧
    (applyFinalState sceneSx ((1 : ℚ)/4, (1 : ℚ)/4) 2560 1440).render_resolution_y =
      pyRound ((sceneSx.overscan_settings.specific_x_resolution : ℚ) *
        ((sceneSx.render_resolution_y : ℚ) / (sceneSx.render_resolution_x : ℚ))) ∧
    (applyFinalState sceneSx ((1 : ℚ)/4, (1 : ℚ)/4) 2560 1440).render_resolution_y =
      1440 := by
  have h1 := C3_new_resolution scenePct _ scenePct_apply
  have h2 := C3_new_resolution sceneSx _ sceneSx_apply
  refine ⟨(h1.1 rfl).1, ?_, ?_, (h2.2.2 rfl).2, ?_⟩ <;> simp [applyFinalState]

theorem C4_witness :
    (applyFinalState scenePix100 ((5 : ℚ)/101, (5 : ℚ)/59) 2020
      1180).safe_areas.title = (1, 1) ∧
    (applyFinalState scenePix100 ((5 : ℚ)/101, (5 : ℚ)/59) 2020
      1180).safe_areas.action =
      ((scenePix100.overscan_settings.extra_pixels : ℚ) / 2 /
          ((scenePix100.overscan_settings.extra_pixels : ℚ) +
            (scenePix100.render_resolution_x : ℚ)) * 2,
       (scenePix100.overscan_settings.extra_pixels : ℚ) / 2 /
          ((scenePix100.overscan_settings.extra_pixels : ℚ) +
            (scenePix100.render_resolution_y : ℚ)) * 2) ∧
    (applyFinalState scenePix100 ((5 : ℚ)/101, (5 : ℚ)/59) 2020
      1180).safe_areas.action = ((5 : ℚ)/101, (5 : ℚ)/59) := by
  have h := C4_safe_margins scenePix100 _ scenePix100_apply
  exact ⟨h.1, h.2.2.1 rfl, by simp [applyFinalState]⟩

theorem C5_witness :
    camParam (applyFinalState scenePix ((1 : ℚ)/2, (1 : ℚ)/2) 2 2) =
      camParam scenePix *
        (((applyFinalState scenePix ((1 : ℚ)/2, (1 : ℚ)/2) 2 2).render_resolution_x : ℚ) /
          (scenePix.render_resolution_x : ℚ)) ∧
    (applyFinalState scenePix ((1 : ℚ)/2, (1 : ℚ)/2)
      2 2).camera.data.bg_image_scale.lookup 0 = some 5 ∧
    ((applyFinalState scenePix ((1 : ℚ)/2, (1 : ℚ)/2)
        2 2).camera.data.background_images[0]?).map BGImage.scale =
      some (5 * (camParam scenePix /
        camParam (applyFinalState scenePix ((1 : ℚ)/2, (1 : ℚ)/2) 2 2))) := by
  have h := C5_camera_param_and_bg scenePix _ scenePix_apply
  have hbg := h.2 0 { has_scale := true, scale := 5 } rfl rfl
  exact ⟨h.1, hbg.1, hbg.2⟩

theorem C6_witness :
    (RevertOverscan_execute scenePix).1 = OpResult.FINISHED ∧
    (RevertOverscan_execute scenePix).2.render_resolution_x =
      scenePix.overscan_settings.original_width ∧
    (RevertOverscan_execute scenePix).2.render_resolution_y =
      scenePix.overscan_settings.original_height ∧
    (RevertOverscan_execute scenePix).2.camera.data.sensor_width =
      scenePix.camera.data.sensor_width ∧
    (RevertOverscan_execute scenePix).2.camera.data.ortho_scale =
      scenePix.camera.data.ortho_scale ∧
    (RevertOverscan_execute scenePix).2.camera.data.background_images =
      scenePix.camera.data.background_images ∧
    (RevertOverscan_execute scenePix).2.safe_areas.action = (1, 1) ∧
    (RevertOverscan_execute scenePix).2.safe_areas.title = (1, 1) ∧
    (RevertOverscan_execute scenePix).2.camera.data.overscan_applied =
      some false :=
  C6_revert_without_capture scenePix rfl rfl rfl rfl rfl

theorem C7_witness :
    applyNameStep (applyNameStep ['C', 'a', 'm']) = applyNameStep ['C', 'a', 'm'] ∧
    applyNameStep ['C', 'a', 'm'] = ['C', 'a', 'm'] ++ oSuffix ∧
    revertNameStep ['C', 'a', 'm'] = ['C', 'a', 'm'] := by
  have h := C7_name_step ['C', 'a', 'm']
  exact ⟨h.1, h.2.2.1 (by decide), h.2.2.2 (by decide)⟩

theorem C8_witness :
    (ApplyOverscan_execute scenePix = Except.error () ↔
      Legacy.ApplyOverscan_execute scenePix = Except.error ()) ∧
    (∀ r₁ t₁ r₂ t₂,
      ApplyOverscan_execute scenePix = Except.ok (r₁, t₁) →
      Legacy.ApplyOverscan_execute scenePix = Except.ok (r₂, t₂) →
      r₁ = r₂ ∧
      t₁.render_resolution_x = t₂.render_resolution_x ∧
      t₁.render_resolution_y = t₂.render_resolution_y ∧
      t₁.camera.data.sensor_width = t₂.camera.data.sensor_width ∧
      t₁.camera.data.ortho_scale = t₂.camera.data.ortho_scale ∧
      t₁.camera.data.background_images = t₂.camera.data.background_images ∧
      t₁.camera.name = t₂.camera.name) :=
  C8_legacy_equivalence_persp scenePix (by decide) (by norm_num [scenePix])
    (by decide) (by decide) (by decide) (by decide)

theorem C8_counterexample :
    (ApplyOverscan_execute sceneOrtho).map
      (fun x => x.2.camera.data.ortho_scale) = Except.ok 6 ∧
    (Legacy.ApplyOverscan_execute sceneOrtho).map
      (fun x => x.2.camera.data.ortho_scale) = Except.ok 3 ∧
    (ApplyOverscan_execute sceneOrtho).map
      (fun x => x.2.camera.data.sensor_width) = Except.ok 1 ∧
    (Legacy.ApplyOverscan_execute sceneOrtho).map
      (fun x => x.2.camera.data.sensor_width) = Except.ok 2 ∧
    (6 : ℚ) ≠ 3 := by
  rw [sceneOrtho_apply, sceneOrtho_legacy_apply]
  refine ⟨?_, ?_, ?_, ?_, by norm_num⟩ <;>
    norm_num [Except.map, applyFinalState, legacyFinalState, camParam, sceneOrtho]

theorem C9_witness :
    ApplyOverscan_execute sceneZeroW = Except.error () ∧
    pydiv 5 ((1920 : ℤ) : ℚ) = Except.ok (5 / ((1920 : ℤ) : ℚ)) :=
  ⟨C9_zero_width_division.1 sceneZeroW (by decide) rfl,
   C9_zero_width_division.2 5 1920 (by decide)⟩

theorem C10_witness :
    (applyFinalState sceneSuf ((1 : ℚ)/2, (1 : ℚ)/2) 2 2).camera.name =
      sceneSuf.camera.name ∧
    (RevertOverscan_execute (applyFinalState sceneSuf ((1 : ℚ)/2, (1 : ℚ)/2)
      2 2)).2.camera.name =
      sceneSuf.camera.name.take (sceneSuf.camera.name.length - 2) ∧
    (RevertOverscan_execute (applyFinalState sceneSuf ((1 : ℚ)/2, (1 : ℚ)/2)
      2 2)).2.camera.name ≠ sceneSuf.camera.name :=
  C10_presuffixed_name_cycle sceneSuf
    (applyFinalState sceneSuf ((1 : ℚ)/2, (1 : ℚ)/2) 2 2) (by decide)
    sceneSuf_apply
